import Mathlib

/-!
bff-api-go: the authenticated product/inventory aggregation endpoint

A shallow embedding of `bff-api-go/main.go`.

* Go strings are Lean strings (the valid UTF-8 ones; the prefixes stripped are
  ASCII, so stripping bytes and stripping characters agree);
  `strings.TrimPrefix` is written over the character list so that it can be
  reasoned about with list lemmas.
* A Go `error` is identified with the text of its `Error()` method; a `nil`
  error is `none`.
* The effects of a handler are made explicit: a handler returns what it did
  with the `http.ResponseWriter` (or that it panicked) together with the trace
  of log lines it printed and outbound HTTP requests it sent.
* The network, the JSON decoder and the JWT primitives are parameters
  (`Env`, `JwtLib`): every theorem holds for all of them.
-/

namespace BffApiGo

/-! ## Data model -/

/-- Go error values, identified by the text returned by their `Error()` method. -/
abbrev GoError := String

/-- A Go `float64`, kept as its IEEE-754 bit pattern. The program only ever
copies these values; it performs no arithmetic on them. -/
structure Float64 where
  bits : Nat
deriving DecidableEq, Repr

/-- Product represents the structure of a product. -/
structure Product where
  ID : Int
  Name : String
  Description : String
  Price : Float64
deriving DecidableEq, Repr

/-- InventoryItem represents the structure of an inventory item. -/
structure InventoryItem where
  ProductID : Int
  StockCount : Int
deriving DecidableEq, Repr

/-- ProductDetail represents the aggregated product details. -/
structure ProductDetail where
  ID : Int
  Name : String
  Description : String
  Price : Float64
  StockCount : Int
deriving DecidableEq, Repr

/-- The zero value of `Product` (`var product Product`). -/
def Product.zero : Product :=
  { ID := 0, Name := "", Description := "", Price := { bits := 0 } }

/-- The zero value of `InventoryItem` (`var inventory InventoryItem`). -/
def InventoryItem.zero : InventoryItem :=
  { ProductID := 0, StockCount := 0 }

/-- The constant `issuer` of `main.go`. -/
def issuer : String := "my-api-gateway"

def StatusOK : Nat := 200
def StatusBadRequest : Nat := 400
def StatusUnauthorized : Nat := 401
def StatusBadGateway : Nat := 502

/-! ## Strings -/

/-- Go `strings.HasPrefix s pre`. -/
def startsWith (s pre : String) : Bool :=
  pre.data.isPrefixOf s.data

/-- Go `strings.TrimPrefix s pre`: `s` without the leading `pre`, or `s`
itself when it does not start with `pre`. -/
def trimPrefix (s pre : String) : String :=
  if startsWith s pre then String.mk (s.data.drop pre.data.length) else s

/-! ## Claims, request context, requests and responses -/

/-- A value stored in `jwt.MapClaims` (a decoded JSON value). Arrays and
objects are kept as their JSON text: the program never looks inside them. -/
inductive ClaimValue where
  | str (s : String)
  | num (v : Float64)
  | bool (b : Bool)
  | null
  | arr (raw : String)
  | obj (raw : String)
deriving DecidableEq, Repr

/-- Go `jwt.MapClaims`, a `map[string]interface{}`, as an association list. -/
abbrev MapClaims := List (String × ClaimValue)

/-- The dynamic value found under a context key: either a `jwt.MapClaims`
or a value of some other dynamic type. -/
inductive CtxValue where
  | mapClaims (m : MapClaims)
  | other
deriving DecidableEq, Repr

/-- The parts of `*http.Request` that the program reads. Header keys are in
canonical form, as the server stores them. -/
structure Request where
  path : String
  header : List (String × String)
  ctx : List (String × CtxValue)
deriving DecidableEq, Repr

/-- Go `r.Header.Get key`: the value stored under the key, `""` when absent. -/
def Request.headerGet (r : Request) (key : String) : String :=
  (r.header.lookup key).getD ""

/-- Go `r.Context().Value key`. -/
def Request.ctxValue (r : Request) (key : String) : Option CtxValue :=
  r.ctx.lookup key

/-- Go `r.WithContext (context.WithValue (r.Context ()) key v)`. -/
def Request.withValue (r : Request) (key : String) (v : CtxValue) : Request :=
  { r with ctx := (key, v) :: r.ctx }

/-- What a handler did with its `http.ResponseWriter`:
`error msg code` is the call `http.Error(w, msg, code)`;
`json d` is `json.NewEncoder(w).Encode(d)` after setting the JSON content
type, with no explicit status (so the status is 200). A price decoded from
JSON is a finite number, which the encoder always accepts. -/
inductive Response where
  | error (msg : String) (code : Nat)
  | json (detail : ProductDetail)
deriving DecidableEq, Repr

/-- The HTTP status of a response. -/
def Response.status : Response → Nat
  | .error _ code => code
  | .json _ => StatusOK

/-- The `ProductDetail` JSON written, if any. -/
def Response.detail : Response → Option ProductDetail
  | .error _ _ => none
  | .json d => some d

/-- An outbound HTTP request handed to the `http.Client`. -/
structure OutRequest where
  method : String
  url : String
  header : List (String × String)
deriving DecidableEq, Repr

/-- The path of an absolute URL as `net/url` splits it (`url.Parse`, which
`http.NewRequest` applies to the URL text): the fragment is cut off at the
first `#`, the query at the first `?`, the scheme ends at the first `:` and
the authority after `//` ends at the next `/`. The path is kept as written;
percent-decoding is not modelled. -/
def urlPath (url : String) : String :=
  let noFragment := url.data.takeWhile (fun c => c != '#')
  let noQuery := noFragment.takeWhile (fun c => c != '?')
  let rest := (noQuery.dropWhile (fun c => c != ':')).drop 1
  if "//".data.isPrefixOf rest then
    String.mk ((rest.drop 2).dropWhile (fun c => c != '/'))
  else String.mk rest

/-- The path the outbound request is addressed to (`req.URL.Path` as written). -/
def OutRequest.path (req : OutRequest) : String :=
  urlPath req.url

/-- Go `req.Header.Set key value` on an outbound request. -/
def OutRequest.headerSet (req : OutRequest) (key value : String) : OutRequest :=
  { req with header := (key, value) :: req.header.filter (fun kv => kv.1 != key) }

/-- Go `req.Header.Get key` on an outbound request, `none` when absent. -/
def OutRequest.headerGet (req : OutRequest) (key : String) : Option String :=
  req.header.lookup key

/-- The status code and body of a backend reply (`*http.Response`). -/
structure HttpResponse where
  StatusCode : Nat
  body : String
deriving DecidableEq, Repr

/-- An observable effect other than writing the response. -/
inductive Event where
  | log (line : String)
  | send (req : OutRequest)
deriving DecidableEq, Repr

/-- How serving a request ended. -/
inductive Outcome where
  | responded (resp : Response)
  | panicked
deriving DecidableEq, Repr

/-- The result of serving one request: the outcome and the effects, in order. -/
structure Result where
  outcome : Outcome
  trace : List Event
deriving DecidableEq, Repr

/-- Go `http.Handler`. -/
abbrev Handler := Request → Result

/-- The outbound requests of a trace. -/
def sent : List Event → List OutRequest
  | [] => []
  | .send req :: es => req :: sent es
  | .log _ :: es => sent es

/-! ## The outside world -/

/-- Everything outside the process that the two fetches depend on. -/
structure Env where
  /-- Failure of `http.NewRequest` on a method and URL (URL parsing). -/
  newRequestErr : String → String → Option GoError
  /-- The `http.Client` (timeout 5 s): a transport error, a timeout, or a reply. -/
  roundTrip : OutRequest → Except GoError HttpResponse
  /-- The `json.Decoder` on a `Product`: what is left in the variable, and the error. -/
  decodeProduct : String → Product × Option GoError
  /-- The `json.Decoder` on an `InventoryItem`. -/
  decodeInventory : String → InventoryItem × Option GoError

/-- The outcome of one fetch: the Go result pair and the effects. -/
structure Fetch (α : Type) where
  value : α
  err : Option GoError
  trace : List Event

/-- Go `fmt.Errorf("unexpected status code: %d, body: %s", code, body)`. -/
def unexpectedStatus (code : Nat) (body : String) : GoError :=
  "unexpected status code: " ++ toString code ++ ", body: " ++ body

/-! ## The two downstream fetches -/

/-- The function `getProduct` of `main.go`. -/
def getProduct (env : Env) (id authHeader : String) : Fetch Product :=
  let url := "http://product-api:8080/api/products/" ++ id
  match env.newRequestErr "GET" url with
  | some err => { value := Product.zero, err := some err, trace := [] }
  | none =>
    let req := OutRequest.headerSet { method := "GET", url := url, header := [] }
      "Authorization" authHeader
    match env.roundTrip req with
    | .error err => { value := Product.zero, err := some err, trace := [.send req] }
    | .ok resp =>
      if resp.StatusCode ≠ StatusOK then
        { value := Product.zero, err := some (unexpectedStatus resp.StatusCode resp.body),
          trace := [.send req] }
      else
        let d := env.decodeProduct resp.body
        { value := d.1, err := d.2, trace := [.send req] }

/-- Go `client.Get url`: `NewRequest("GET", url, nil)` followed by `client.Do`. -/
def clientGet (env : Env) (url : String) : Except GoError HttpResponse × List Event :=
  match env.newRequestErr "GET" url with
  | some err => (.error err, [])
  | none =>
    let req : OutRequest := { method := "GET", url := url, header := [] }
    (env.roundTrip req, [.send req])

/-- The function `getInventory` of `main.go`. -/
def getInventory (env : Env) (id : String) : Fetch InventoryItem :=
  let got := clientGet env ("http://inventory-api:8080/inventory/" ++ id)
  match got.1 with
  | .error err => { value := InventoryItem.zero, err := some err, trace := got.2 }
  | .ok resp =>
    if resp.StatusCode ≠ StatusOK then
      { value := InventoryItem.zero, err := some (unexpectedStatus resp.StatusCode resp.body),
        trace := got.2 }
    else
      let d := env.decodeInventory resp.body
      { value := d.1, err := d.2, trace := got.2 }

/-! ## The aggregation handler -/

/-- The part of `productsHandler` after `wg.Wait()`: the partial-failure
decision and the merge, on the four variables the two goroutines filled. -/
def respond (id : String) (product : Product) (productErr : Option GoError)
    (inventory : InventoryItem) (inventoryErr : Option GoError) : Response × List Event :=
  match productErr with
  | some err => (.error ("Product API returned an error: " ++ err) StatusBadGateway, [])
  | none =>
    let stock : Int × List Event :=
      match inventoryErr with
      | some err =>
        (0, [.log ("---> Go BFF: Warning - Inventory API call failed: " ++ err ++
              ". Defaulting stock to 0.")])
      | none => (inventory.StockCount, [])
    let productDetail : ProductDetail :=
      { ID := product.ID, Name := product.Name, Description := product.Description,
        Price := product.Price, StockCount := stock.1 }
    (.json productDetail,
      stock.2 ++ [.log ("---> Go BFF: Aggregation complete for product " ++ id ++ ".")])

/-- The function `productsHandler` of `main.go`. The two goroutines are run
one after the other here; `JoinState` below models their interleavings. -/
def productsHandler (env : Env) : Handler := fun r =>
  let id := trimPrefix r.path "/api-go/products/"
  if id = "" then
    { outcome := .responded (.error "Product ID required" StatusBadRequest), trace := [] }
  else
    match r.ctxValue "user" with
    | some (.mapClaims userClaims) =>
      match userClaims.lookup "preferred_username" with
      | some (.str userName) =>
        let started := Event.log
          ("---> Go BFF: Aggregation started for product " ++ id ++ ", user: " ++ userName)
        let p := getProduct env id (r.headerGet "Authorization")
        let i := getInventory env id
        let out := respond id p.value p.err i.value i.err
        { outcome := .responded out.1, trace := started :: (p.trace ++ i.trace ++ out.2) }
      | _ => { outcome := .panicked, trace := [] }
    | _ => { outcome := .panicked, trace := [] }

/-! ## The join of the two goroutines

`productsHandler` starts two goroutines after `wg.Add(2)`; each assigns the
result of its fetch to its own pair of variables and then runs the deferred
`wg.Done()`. The main goroutine blocks in `wg.Wait()` until the counter is
zero. The machine below makes the interleavings explicit. -/

/-- The three goroutines of one request. -/
inductive Thread where
  | main
  | productTask
  | inventoryTask
deriving DecidableEq, Repr

/-- Where a fetch goroutine stands: not yet run, result assigned, or
finished (its deferred `wg.Done()` has run). -/
inductive TaskPc where
  | ready
  | assigned
  | done
deriving DecidableEq, Repr

/-- The variables shared by the three goroutines, the positions of the two
fetch goroutines, and what the main goroutine has written so far. -/
structure JoinState where
  wg : Nat
  product : Product
  productErr : Option GoError
  inventory : InventoryItem
  inventoryErr : Option GoError
  productPc : TaskPc
  inventoryPc : TaskPc
  productCalls : Nat
  inventoryCalls : Nat
  response : Option Response
  trace : List Event
deriving DecidableEq, Repr

/-- The state right after `wg.Add(2)` and the two `go` statements. -/
def JoinState.init : JoinState :=
  { wg := 2, product := Product.zero, productErr := none,
    inventory := InventoryItem.zero, inventoryErr := none,
    productPc := .ready, inventoryPc := .ready,
    productCalls := 0, inventoryCalls := 0, response := none, trace := [] }

/-- One move of one goroutine. A goroutine that cannot move (finished, or
blocked in `wg.Wait()`) leaves the state unchanged. -/
def JoinState.step (env : Env) (id authHeader : String) (t : Thread) (s : JoinState) :
    JoinState :=
  match t with
  | .productTask =>
    match s.productPc with
    | .ready =>
      let f := getProduct env id authHeader
      { s with product := f.value, productErr := f.err, productPc := .assigned,
               productCalls := s.productCalls + 1, trace := s.trace ++ f.trace }
    | .assigned => { s with wg := s.wg - 1, productPc := .done }
    | .done => s
  | .inventoryTask =>
    match s.inventoryPc with
    | .ready =>
      let f := getInventory env id
      { s with inventory := f.value, inventoryErr := f.err, inventoryPc := .assigned,
               inventoryCalls := s.inventoryCalls + 1, trace := s.trace ++ f.trace }
    | .assigned => { s with wg := s.wg - 1, inventoryPc := .done }
    | .done => s
  | .main =>
    if s.wg = 0 ∧ s.response = none then
      let out := respond id s.product s.productErr s.inventory s.inventoryErr
      { s with response := some out.1, trace := s.trace ++ out.2 }
    else s

/-- Run a schedule (the order in which the scheduler picks goroutines). -/
def JoinState.run (env : Env) (id authHeader : String) : List Thread → JoinState → JoinState
  | [], s => s
  | t :: ts, s => JoinState.run env id authHeader ts (JoinState.step env id authHeader t s)

/-- What holds of every state the three goroutines can reach: the
`WaitGroup` counter counts the unfinished fetch goroutines, each fetch has
been called once it has left `ready` and never twice, its variables hold its
result, and a response is only written at counter zero and is the decision
on the two results. -/
def JoinState.Inv (env : Env) (id authHeader : String) (s : JoinState) : Prop :=
  s.wg = (if s.productPc = .done then 0 else 1) + (if s.inventoryPc = .done then 0 else 1) ∧
  s.productCalls = (if s.productPc = .ready then 0 else 1) ∧
  s.inventoryCalls = (if s.inventoryPc = .ready then 0 else 1) ∧
  (s.productPc ≠ .ready →
    s.product = (getProduct env id authHeader).value ∧
      s.productErr = (getProduct env id authHeader).err) ∧
  (s.inventoryPc ≠ .ready →
    s.inventory = (getInventory env id).value ∧
      s.inventoryErr = (getInventory env id).err) ∧
  (∀ resp, s.response = some resp →
    s.wg = 0 ∧
      resp = (respond id (getProduct env id authHeader).value (getProduct env id authHeader).err
        (getInventory env id).value (getInventory env id).err).1)

/-! ## Token validation

`jwt.Parse` belongs to the library `github.com/golang-jwt/jwt/v5`. Its
pipeline is written out here; segment decoding, signature verification and
the clock-dependent checks are parameters. -/

/-- The concrete types of `jwt.SigningMethod`, with the algorithm name. -/
inductive SigningMethod where
  | rsa (alg : String)
  | rsaPSS (alg : String)
  | hmac (alg : String)
  | ecdsa (alg : String)
  | ed25519
  | none
deriving DecidableEq, Repr

/-- Go `rsa.PublicKey`. -/
structure RSAPublicKey where
  N : Nat
  E : Nat
deriving DecidableEq, Repr

/-- The parts of `jwt.Token` that the program reads. `headerAlg` is
`token.Header["alg"]`. -/
structure Token where
  Raw : String
  Method : SigningMethod
  headerAlg : String
  Claims : MapClaims
  Valid : Bool
deriving DecidableEq, Repr

/-- The primitives of the JWT library. -/
structure JwtLib where
  /-- Go `Parser.ParseUnverified`: split, decode, look the method up. -/
  parseUnverified : String → Except GoError Token
  /-- Go `token.Method.Verify` on the token text with the key. -/
  verify : SigningMethod → String → RSAPublicKey → Option GoError
  /-- The `exp` and `nbf` checks against the clock: the errors found. -/
  validateTime : MapClaims → List GoError
  /-- How several validation errors are joined into one. -/
  joinErrors : List GoError → GoError

/-- Go `MapClaims.GetIssuer`: `""` when absent, an error when not a string. -/
def getIssuer (claims : MapClaims) : Except GoError String :=
  match claims.lookup "iss" with
  | Option.none => .ok ""
  | some (.str iss) => .ok iss
  | some _ => .error "invalid type for claim: iss is invalid"

/-- The issuer check of the library validator, with the issuer required. -/
def verifyIssuer (claims : MapClaims) (cmp : String) : Option GoError :=
  match getIssuer claims with
  | .error e => some e
  | .ok iss =>
    if iss = "" then some "token is missing required claim: iss claim is required"
    else if iss = cmp then Option.none
    else some "token has invalid issuer"

/-- The library validator under the option `jwt.WithIssuer expectedIss`. -/
def validateClaims (lib : JwtLib) (expectedIss : String) (claims : MapClaims) :
    Option GoError :=
  let issErrs : List GoError :=
    if expectedIss ≠ "" then (verifyIssuer claims expectedIss).toList else []
  let errs := lib.validateTime claims ++ issErrs
  if errs = [] then Option.none else some (lib.joinErrors errs)

/-- Go `jwt.Parse tokenString keyFunc (jwt.WithIssuer expectedIss)`: the
token pointer (possibly `nil`) and the error. -/
def jwtParse (lib : JwtLib) (tokenString : String)
    (keyFunc : Token → Except GoError RSAPublicKey) (expectedIss : String) :
    Option Token × Option GoError :=
  match lib.parseUnverified tokenString with
  | .error e => (Option.none, some e)
  | .ok token =>
    match keyFunc token with
    | .error e =>
      (some token, some ("token is unverifiable: error while executing keyfunc: " ++ e))
    | .ok key =>
      match lib.verify token.Method tokenString key with
      | some e => (some token, some ("token signature is invalid: " ++ e))
      | Option.none =>
        match validateClaims lib expectedIss token.Claims with
        | some e => (some token, some ("token has invalid claims: " ++ e))
        | Option.none => (some { token with Valid := true }, Option.none)

/-- The key callback that `jwtMiddleware` passes to `jwt.Parse`. -/
def keyFunc (rsaPublicKey : RSAPublicKey) (token : Token) : Except GoError RSAPublicKey :=
  match token.Method with
  | .rsa _ => .ok rsaPublicKey
  | _ => .error ("unexpected signing method: " ++ token.headerAlg)

/-- Go `http.Error(w, msg, http.StatusUnauthorized)` and return. -/
def unauthorized (msg : String) : Result :=
  { outcome := .responded (.error msg StatusUnauthorized), trace := [] }

/-- The function `jwtMiddleware` of `main.go`. -/
def jwtMiddleware (lib : JwtLib) (rsaPublicKey : RSAPublicKey) (next : Handler) : Handler :=
  fun r =>
  let authHeader := r.headerGet "Authorization"
  if authHeader = "" then unauthorized "Authorization header required"
  else
    let tokenString := trimPrefix authHeader "Bearer "
    if tokenString = authHeader then unauthorized "Bearer token required"
    else
      match jwtParse lib tokenString (keyFunc rsaPublicKey) issuer with
      | (_, some err) => unauthorized ("Invalid token: " ++ err)
      | (Option.none, Option.none) => { outcome := .panicked, trace := [] }
      | (some token, Option.none) =>
        if !token.Valid then unauthorized "Invalid token"
        else next (r.withValue "user" (.mapClaims token.Claims))

/-- The route registered in `main`: `jwtMiddleware(http.HandlerFunc(productsHandler))`. -/
def serve (env : Env) (lib : JwtLib) (rsaPublicKey : RSAPublicKey) : Handler :=
  jwtMiddleware lib rsaPublicKey (productsHandler env)

/-! ## Concrete inputs -/

/-- A network in which every URL parses, the product backend answers
`productReply`, the inventory backend answers `inventoryReply`, and the
bodies decode to `p` and `v`. -/
def stubEnv (productReply inventoryReply : Except GoError HttpResponse)
    (p : Product) (v : InventoryItem) : Env :=
  { newRequestErr := fun _ _ => Option.none
    roundTrip := fun req =>
      if startsWith req.url "http://product-api:8080/" then productReply else inventoryReply
    decodeProduct := fun _ => (p, Option.none)
    decodeInventory := fun _ => (v, Option.none) }

/-- A product used in the examples. -/
def sampleProduct : Product :=
  { ID := 7, Name := "Lamp", Description := "Desk lamp", Price := { bits := 4626322717216342016 } }

/-- An inventory record for `sampleProduct`. -/
def sampleInventory : InventoryItem :=
  { ProductID := 7, StockCount := 3 }

/-- A request as `jwtMiddleware` hands it to `productsHandler`. -/
def sampleRequest : Request :=
  { path := "/api-go/products/7"
    header := [("Authorization", "Bearer abc")]
    ctx := [("user", .mapClaims [("iss", .str "my-api-gateway"),
                                 ("preferred_username", .str "alice")])] }

/-- A reply with status 200. -/
def okReply : Except GoError HttpResponse :=
  .ok { StatusCode := 200, body := "..." }

/-- A reply with status 500. -/
def failReply : Except GoError HttpResponse :=
  .ok { StatusCode := 500, body := "boom" }

/-- A JWT library whose decoder yields the token `t` for every token text,
whose signature check always passes and whose clock checks find nothing. -/
def stubLib (t : Token) : JwtLib :=
  { parseUnverified := fun raw => .ok { t with Raw := raw }
    verify := fun _ _ _ => Option.none
    validateTime := fun _ => []
    joinErrors := fun es => String.intercalate ", " es }

/-- A token signed with RS256 by the expected issuer. -/
def sampleToken : Token :=
  { Raw := "", Method := .rsa "RS256", headerAlg := "RS256",
    Claims := [("iss", .str "my-api-gateway"), ("preferred_username", .str "alice")],
    Valid := false }

/-- A token of the expected issuer with no `preferred_username` claim. -/
def anonymousToken : Token :=
  { Raw := "", Method := .rsa "RS256", headerAlg := "RS256",
    Claims := [("iss", .str "my-api-gateway")], Valid := false }

/-- A token that declares HS256. -/
def hmacToken : Token :=
  { Raw := "", Method := .hmac "HS256", headerAlg := "HS256",
    Claims := [("iss", .str "my-api-gateway"), ("preferred_username", .str "alice")],
    Valid := false }

/-- A small RSA public key. -/
def sampleKey : RSAPublicKey :=
  { N := 3233, E := 17 }

/-- A request as it arrives at `jwtMiddleware`. -/
def inboundRequest : Request :=
  { path := "/api-go/products/7", header := [("Authorization", "Bearer abc")], ctx := [] }

/-- A request whose Authorization header uses another scheme. -/
def basicRequest : Request :=
  { path := "/api-go/products/", header := [("Authorization", "Basic abc")], ctx := [] }

/-! ## Lemmas -/

theorem productsHandler_authenticated (env : Env) (r : Request) (m : MapClaims) (u : String)
    (hid : trimPrefix r.path "/api-go/products/" ≠ "")
    (hctx : r.ctxValue "user" = some (.mapClaims m))
    (hu : m.lookup "preferred_username" = some (.str u)) :
    productsHandler env r =
      { outcome := .responded
          (respond (trimPrefix r.path "/api-go/products/")
            (getProduct env (trimPrefix r.path "/api-go/products/")
              (r.headerGet "Authorization")).value
            (getProduct env (trimPrefix r.path "/api-go/products/")
              (r.headerGet "Authorization")).err
            (getInventory env (trimPrefix r.path "/api-go/products/")).value
            (getInventory env (trimPrefix r.path "/api-go/products/")).err).1
        trace :=
          Event.log ("---> Go BFF: Aggregation started for product " ++
              trimPrefix r.path "/api-go/products/" ++ ", user: " ++ u) ::
            ((getProduct env (trimPrefix r.path "/api-go/products/")
                (r.headerGet "Authorization")).trace ++
              (getInventory env (trimPrefix r.path "/api-go/products/")).trace ++
              (respond (trimPrefix r.path "/api-go/products/")
                (getProduct env (trimPrefix r.path "/api-go/products/")
                  (r.headerGet "Authorization")).value
                (getProduct env (trimPrefix r.path "/api-go/products/")
                  (r.headerGet "Authorization")).err
                (getInventory env (trimPrefix r.path "/api-go/products/")).value
                (getInventory env (trimPrefix r.path "/api-go/products/")).err).2) } := by
  unfold productsHandler
  simp only [hid, hctx, hu, if_false]

theorem trimPrefix_of_not_startsWith (s pre : String) (h : startsWith s pre = false) :
    trimPrefix s pre = s := by
  simp [trimPrefix, h]

theorem trimPrefix_ne_of_startsWith (s pre : String) (h : startsWith s pre = true)
    (hpre : 0 < pre.data.length) : trimPrefix s pre ≠ s := by
  intro heq
  have hle : pre.data.length ≤ s.data.length := by
    have hp : pre.data <+: s.data := List.isPrefixOf_iff_prefix.mp h
    exact hp.length_le
  have hlen : (trimPrefix s pre).data.length = s.data.length - pre.data.length := by
    simp [trimPrefix, h]
  rw [heq] at hlen
  omega

theorem verifyIssuer_some (claims : MapClaims) (cmp : String)
    (h : getIssuer claims ≠ .ok cmp) : ∃ e, verifyIssuer claims cmp = some e := by
  unfold verifyIssuer
  cases hg : getIssuer claims with
  | error e => exact ⟨e, rfl⟩
  | ok iss =>
    simp only
    by_cases h1 : iss = ""
    · simp [h1]
    · by_cases h2 : iss = cmp
      · rw [hg, h2] at h
        exact absurd rfl h
      · simp [h1, h2]

theorem validateClaims_some (lib : JwtLib) (expectedIss : String) (claims : MapClaims)
    (hiss : expectedIss ≠ "") (h : getIssuer claims ≠ .ok expectedIss) :
    ∃ e, validateClaims lib expectedIss claims = some e := by
  obtain ⟨e, he⟩ := verifyIssuer_some claims expectedIss h
  unfold validateClaims
  simp [hiss, he]

theorem jwtParse_keyFunc_error (lib : JwtLib) (s : String)
    (kf : Token → Except GoError RSAPublicKey) (iss : String) (t : Token) (e : GoError)
    (ht : lib.parseUnverified s = .ok t) (hk : kf t = .error e) :
    jwtParse lib s kf iss =
      (some t, some ("token is unverifiable: error while executing keyfunc: " ++ e)) := by
  unfold jwtParse
  simp only [ht, hk]

theorem jwtParse_issuer_error (lib : JwtLib) (s : String)
    (kf : Token → Except GoError RSAPublicKey) (iss : String) (t : Token)
    (ht : lib.parseUnverified s = .ok t) (hiss : iss ≠ "")
    (h : getIssuer t.Claims ≠ .ok iss) : ∃ e, (jwtParse lib s kf iss).2 = some e := by
  obtain ⟨e, he⟩ := validateClaims_some lib iss t.Claims hiss h
  unfold jwtParse
  simp only [ht]
  cases hk : kf t with
  | error e1 => exact ⟨_, rfl⟩
  | ok k =>
    simp only
    cases hv : lib.verify t.Method s k with
    | some e2 => exact ⟨_, rfl⟩
    | none =>
      simp only [he]
      exact ⟨_, rfl⟩

theorem jwtParse_cases (lib : JwtLib) (s : String)
    (kf : Token → Except GoError RSAPublicKey) (iss : String) :
    (∃ e, (jwtParse lib s kf iss).2 = some e) ∨
      (∃ tok, jwtParse lib s kf iss = (some tok, Option.none) ∧ tok.Valid = true) := by
  unfold jwtParse
  cases ht : lib.parseUnverified s with
  | error e => exact Or.inl ⟨e, rfl⟩
  | ok t =>
    simp only
    cases hk : kf t with
    | error e1 => exact Or.inl ⟨_, rfl⟩
    | ok k =>
      simp only
      cases hv : lib.verify t.Method s k with
      | some e2 => exact Or.inl ⟨_, rfl⟩
      | none =>
        simp only
        cases hc : validateClaims lib iss t.Claims with
        | some e3 => exact Or.inl ⟨_, rfl⟩
        | none => exact Or.inr ⟨_, rfl, rfl⟩

theorem jwtMiddleware_parse_error (lib : JwtLib) (key : RSAPublicKey) (r : Request)
    (e : GoError)
    (hb : startsWith (r.headerGet "Authorization") "Bearer " = true)
    (he : (jwtParse lib (trimPrefix (r.headerGet "Authorization") "Bearer ") (keyFunc key)
            issuer).2 = some e) (next : Handler) :
    jwtMiddleware lib key next r =
      { outcome := .responded (.error ("Invalid token: " ++ e) 401), trace := [] } := by
  have hne : trimPrefix (r.headerGet "Authorization") "Bearer " ≠
      r.headerGet "Authorization" :=
    trimPrefix_ne_of_startsWith _ _ hb (by decide)
  have hemp : r.headerGet "Authorization" ≠ "" := by
    intro h0
    rw [h0] at hb
    exact absurd hb (by decide)
  unfold jwtMiddleware
  simp only [hemp, hne, if_false]
  cases hj : jwtParse lib (trimPrefix (r.headerGet "Authorization") "Bearer ") (keyFunc key)
      issuer with
  | mk a b =>
    rw [hj] at he
    simp only at he
    subst he
    cases a <;> rfl

theorem jwtMiddleware_parse_ok (lib : JwtLib) (key : RSAPublicKey) (r : Request)
    (tok : Token)
    (hb : startsWith (r.headerGet "Authorization") "Bearer " = true)
    (hj : jwtParse lib (trimPrefix (r.headerGet "Authorization") "Bearer ") (keyFunc key)
            issuer = (some tok, Option.none))
    (hv : tok.Valid = true) (next : Handler) :
    jwtMiddleware lib key next r = next (r.withValue "user" (.mapClaims tok.Claims)) := by
  have hne : trimPrefix (r.headerGet "Authorization") "Bearer " ≠
      r.headerGet "Authorization" :=
    trimPrefix_ne_of_startsWith _ _ hb (by decide)
  have hemp : r.headerGet "Authorization" ≠ "" := by
    intro h0
    rw [h0] at hb
    exact absurd hb (by decide)
  unfold jwtMiddleware
  simp only [hemp, hne, if_false, hj, hv, Bool.not_true, Bool.false_eq_true]

theorem JoinState.inv_init (env : Env) (id h : String) :
    JoinState.Inv env id h JoinState.init := by
  refine ⟨rfl, rfl, rfl, ?_, ?_, ?_⟩
  · intro hne
    exact absurd rfl hne
  · intro hne
    exact absurd rfl hne
  · intro resp hr
    cases hr

theorem JoinState.inv_step (env : Env) (id h : String) (t : Thread) (s : JoinState)
    (hs : JoinState.Inv env id h s) : JoinState.Inv env id h (JoinState.step env id h t s) := by
  obtain ⟨h1, h2, h3, h4, h5, h6⟩ := hs
  cases t with
  | main =>
    unfold JoinState.step
    simp only
    split
    · rename_i hc
      obtain ⟨hwg, hnone⟩ := hc
      have hpd : s.productPc = .done := by
        by_contra hne
        simp [hne] at h1
        omega
      have hid : s.inventoryPc = .done := by
        by_contra hne
        simp [hne] at h1
        omega
      have hp := h4 (by simp [hpd])
      have hi := h5 (by simp [hid])
      refine ⟨h1, h2, h3, h4, h5, ?_⟩
      intro resp hr
      simp only [Option.some.injEq] at hr
      subst hr
      refine ⟨hwg, ?_⟩
      rw [hp.1, hp.2, hi.1, hi.2]
    · exact ⟨h1, h2, h3, h4, h5, h6⟩
  | productTask =>
    unfold JoinState.step
    simp only
    cases hpc : s.productPc with
    | ready =>
      simp only [hpc, if_true] at h1 h2
      refine ⟨?_, ?_, h3, ?_, h5, ?_⟩
      · simpa using h1
      · simp [h2]
      · intro _
        exact ⟨rfl, rfl⟩
      · intro resp hr
        have := (h6 resp hr).1
        simp at h1
        omega
    | assigned =>
      simp [hpc] at h1 h2 h4
      refine ⟨?_, ?_, h3, ?_, h5, ?_⟩
      · simp
        omega
      · simpa using h2
      · intro _
        exact h4
      · intro resp hr
        have := (h6 resp hr).1
        omega
    | done => exact ⟨h1, h2, h3, h4, h5, h6⟩
  | inventoryTask =>
    unfold JoinState.step
    simp only
    cases hpc : s.inventoryPc with
    | ready =>
      simp only [hpc, if_true] at h1 h3
      refine ⟨?_, h2, ?_, h4, ?_, ?_⟩
      · simpa using h1
      · simp [h3]
      · intro _
        exact ⟨rfl, rfl⟩
      · intro resp hr
        have := (h6 resp hr).1
        simp at h1
        omega
    | assigned =>
      simp [hpc] at h1 h3 h5
      refine ⟨?_, h2, ?_, h4, ?_, ?_⟩
      · simp
        omega
      · simpa using h3
      · intro _
        exact h5
      · intro resp hr
        have := (h6 resp hr).1
        omega
    | done => exact ⟨h1, h2, h3, h4, h5, h6⟩

theorem JoinState.inv_run (env : Env) (id h : String) (sched : List Thread) :
    ∀ s : JoinState, JoinState.Inv env id h s →
      JoinState.Inv env id h (JoinState.run env id h sched s) := by
  induction sched with
  | nil =>
    intro s hs
    exact hs
  | cons t ts ih =>
    intro s hs
    exact ih _ (JoinState.inv_step env id h t s hs)

theorem JoinState.run_append (env : Env) (id h : String) (a b : List Thread) :
    ∀ s : JoinState, JoinState.run env id h (a ++ b) s =
      JoinState.run env id h b (JoinState.run env id h a s) := by
  induction a with
  | nil =>
    intro s
    rfl
  | cons t ts ih =>
    intro s
    exact ih _

theorem JoinState.finish (env : Env) (id h : String) (s : JoinState)
    (hs : JoinState.Inv env id h s) :
    ∃ resp, (JoinState.run env id h
      [.productTask, .productTask, .inventoryTask, .inventoryTask, .main] s).response =
        some resp := by
  have hinv := JoinState.inv_run env id h
    [.productTask, .productTask, .inventoryTask, .inventoryTask] s hs
  have hdone : (JoinState.run env id h
      [.productTask, .productTask, .inventoryTask, .inventoryTask] s).productPc = .done ∧
      (JoinState.run env id h
      [.productTask, .productTask, .inventoryTask, .inventoryTask] s).inventoryPc = .done := by
    simp only [JoinState.run, JoinState.step]
    cases hp : s.productPc <;> cases hi : s.inventoryPc <;> simp [hp, hi]
  have hrun : JoinState.run env id h
      [.productTask, .productTask, .inventoryTask, .inventoryTask, .main] s =
      JoinState.step env id h .main (JoinState.run env id h
        [.productTask, .productTask, .inventoryTask, .inventoryTask] s) :=
    JoinState.run_append env id h
      [.productTask, .productTask, .inventoryTask, .inventoryTask] [.main] s
  rw [hrun]
  generalize JoinState.run env id h
    [.productTask, .productTask, .inventoryTask, .inventoryTask] s = s1 at hinv hdone
  have hwg : s1.wg = 0 := by
    have := hinv.1
    simp [hdone.1, hdone.2] at this
    exact this
  unfold JoinState.step
  simp only [hwg, true_and]
  cases hr : s1.response with
  | none =>
    exact ⟨(respond id s1.product s1.productErr s1.inventory s1.inventoryErr).1, by simp⟩
  | some resp => exact ⟨resp, by simp [hr]⟩

/-- C1: when `getProduct` returns an error, whatever `getInventory` returned,
`productsHandler` answers `http.Error` with status 502 and the message
"Product API returned an error: " followed by the error text, and writes no
`ProductDetail`. -/
theorem productsHandler_product_error (env : Env) (r : Request) (m : MapClaims)
    (u : String) (e : GoError)
    (hid : trimPrefix r.path "/api-go/products/" ≠ "")
    (hctx : r.ctxValue "user" = some (.mapClaims m))
    (hu : m.lookup "preferred_username" = some (.str u))
    (hp : (getProduct env (trimPrefix r.path "/api-go/products/")
            (r.headerGet "Authorization")).err = some e) :
    (productsHandler env r).outcome =
        .responded (.error ("Product API returned an error: " ++ e) 502) ∧
      (∀ (id : String) (p : Product) (v : InventoryItem) (ve : Option GoError),
        (respond id p (some e) v ve).1 =
            .error ("Product API returned an error: " ++ e) 502 ∧
          (respond id p (some e) v ve).1.status = 502 ∧
          (respond id p (some e) v ve).1.detail = Option.none) := by
  refine ⟨?_, ?_⟩
  · rw [productsHandler_authenticated env r m u hid hctx hu, hp]
    rfl
  · intro id p v ve
    exact ⟨rfl, rfl, rfl⟩

theorem productsHandler_product_error_witness :
    (productsHandler (stubEnv failReply okReply sampleProduct sampleInventory)
        sampleRequest).outcome =
      .responded (.error
        ("Product API returned an error: " ++ "unexpected status code: 500, body: boom") 502) :=
  (productsHandler_product_error (stubEnv failReply okReply sampleProduct sampleInventory)
    sampleRequest
    [("iss", .str "my-api-gateway"), ("preferred_username", .str "alice")] "alice"
    "unexpected status code: 500, body: boom" (by decide) (by decide) (by decide)
    (by decide)).1

/-- C2: when `getProduct` succeeds with product `p` and `getInventory` returns
an error, `productsHandler` does not answer with an error: it writes, with
status 200, the `ProductDetail` whose stock count is 0 and whose other fields
are those of `p`. A transport error or timeout, a status other than 200 and
a decoding error each make `getInventory` return an error. -/
theorem productsHandler_inventory_error (env : Env) (r : Request) (m : MapClaims)
    (u : String) (p : Product) (ie : GoError)
    (hid : trimPrefix r.path "/api-go/products/" ≠ "")
    (hctx : r.ctxValue "user" = some (.mapClaims m))
    (hu : m.lookup "preferred_username" = some (.str u))
    (hp : (getProduct env (trimPrefix r.path "/api-go/products/")
            (r.headerGet "Authorization")).err = Option.none)
    (hpv : (getProduct env (trimPrefix r.path "/api-go/products/")
            (r.headerGet "Authorization")).value = p)
    (hi : (getInventory env (trimPrefix r.path "/api-go/products/")).err = some ie) :
    (productsHandler env r).outcome =
        .responded (.json { ID := p.ID, Name := p.Name, Description := p.Description,
                            Price := p.Price, StockCount := 0 }) ∧
      (∀ resp, (productsHandler env r).outcome = .responded resp → resp.status = 200) ∧
      (∀ (id : String) (e : GoError),
        (clientGet env ("http://inventory-api:8080/inventory/" ++ id)).1 = .error e →
        (getInventory env id).err = some e) ∧
      (∀ (id : String) (resp : HttpResponse),
        (clientGet env ("http://inventory-api:8080/inventory/" ++ id)).1 = .ok resp →
        resp.StatusCode ≠ 200 →
        (getInventory env id).err = some (unexpectedStatus resp.StatusCode resp.body)) ∧
      (∀ (id : String) (resp : HttpResponse) (e : GoError),
        (clientGet env ("http://inventory-api:8080/inventory/" ++ id)).1 = .ok resp →
        resp.StatusCode = 200 → (env.decodeInventory resp.body).2 = some e →
        (getInventory env id).err = some e) := by
  have h : (productsHandler env r).outcome =
      .responded (.json { ID := p.ID, Name := p.Name, Description := p.Description,
                          Price := p.Price, StockCount := 0 }) := by
    rw [productsHandler_authenticated env r m u hid hctx hu, hp, hpv, hi]
    rfl
  refine ⟨h, ?_, ?_, ?_, ?_⟩
  · intro resp hr
    rw [h] at hr
    cases hr
    rfl
  · intro id e hg
    unfold getInventory
    simp only [hg]
  · intro id resp hg hne
    unfold getInventory
    simp only [hg, StatusOK, ne_eq, hne, not_false_eq_true, if_true]
  · intro id resp e hg h200 hd
    unfold getInventory
    simp only [hg, StatusOK, ne_eq, h200, not_true_eq_false, if_false, hd]

theorem productsHandler_inventory_error_witness :
    (productsHandler (stubEnv okReply failReply sampleProduct sampleInventory)
        sampleRequest).outcome =
      .responded (.json { ID := 7, Name := "Lamp", Description := "Desk lamp",
                          Price := { bits := 4626322717216342016 }, StockCount := 0 }) :=
  (productsHandler_inventory_error (stubEnv okReply failReply sampleProduct sampleInventory)
    sampleRequest
    [("iss", .str "my-api-gateway"), ("preferred_username", .str "alice")] "alice"
    sampleProduct "unexpected status code: 500, body: boom"
    (by decide) (by decide) (by decide) (by decide) (by decide) (by decide)).1

/-- C3: when `getProduct` succeeds with `p` and `getInventory` succeeds with
`v`, the `ProductDetail` written is exactly the fields of `p` together with
`v.StockCount`; `v.ProductID` plays no part in it. -/
theorem productsHandler_merge (env : Env) (r : Request) (m : MapClaims)
    (u : String) (p : Product) (v : InventoryItem)
    (hid : trimPrefix r.path "/api-go/products/" ≠ "")
    (hctx : r.ctxValue "user" = some (.mapClaims m))
    (hu : m.lookup "preferred_username" = some (.str u))
    (hp : (getProduct env (trimPrefix r.path "/api-go/products/")
            (r.headerGet "Authorization")).err = Option.none)
    (hpv : (getProduct env (trimPrefix r.path "/api-go/products/")
            (r.headerGet "Authorization")).value = p)
    (hi : (getInventory env (trimPrefix r.path "/api-go/products/")).err = Option.none)
    (hiv : (getInventory env (trimPrefix r.path "/api-go/products/")).value = v) :
    (productsHandler env r).outcome =
        .responded (.json { ID := p.ID, Name := p.Name, Description := p.Description,
                            Price := p.Price, StockCount := v.StockCount }) ∧
      (∀ (id : String) (k : Int),
        (respond id p Option.none { ProductID := k, StockCount := v.StockCount }
            Option.none).1 =
          .json { ID := p.ID, Name := p.Name, Description := p.Description,
                  Price := p.Price, StockCount := v.StockCount }) := by
  refine ⟨?_, ?_⟩
  · rw [productsHandler_authenticated env r m u hid hctx hu, hp, hpv, hi, hiv]
    rfl
  · intro id k
    rfl

theorem productsHandler_merge_witness :
    (productsHandler (stubEnv okReply okReply sampleProduct sampleInventory)
        sampleRequest).outcome =
      .responded (.json { ID := 7, Name := "Lamp", Description := "Desk lamp",
                          Price := { bits := 4626322717216342016 }, StockCount := 3 }) :=
  (productsHandler_merge (stubEnv okReply okReply sampleProduct sampleInventory)
    sampleRequest
    [("iss", .str "my-api-gateway"), ("preferred_username", .str "alice")] "alice"
    sampleProduct sampleInventory
    (by decide) (by decide) (by decide) (by decide) (by decide) (by decide) (by decide)).1

/-- C6: when the path with "/api-go/products/" stripped is empty,
`productsHandler` answers 400 "Product ID required" whatever the request
context holds, and does nothing else: no log line, no outbound request. -/
theorem productsHandler_missing_id (env : Env) (r : Request)
    (hid : trimPrefix r.path "/api-go/products/" = "") :
    productsHandler env r =
        { outcome := .responded (.error "Product ID required" 400), trace := [] } ∧
      sent (productsHandler env r).trace = [] := by
  have h : productsHandler env r =
      { outcome := .responded (.error "Product ID required" 400), trace := [] } := by
    unfold productsHandler
    simp only [hid, if_true]
    rfl
  refine ⟨h, ?_⟩
  rw [h]
  rfl

theorem productsHandler_missing_id_witness :
    productsHandler (stubEnv okReply okReply sampleProduct sampleInventory)
        { path := "/api-go/products/", header := [], ctx := [] } =
      { outcome := .responded (.error "Product ID required" 400), trace := [] } :=
  (productsHandler_missing_id (stubEnv okReply okReply sampleProduct sampleInventory)
    { path := "/api-go/products/", header := [], ctx := [] } (by decide)).1

/-- C7, as stated, fails: a `ProductDetail` written by `productsHandler` can
carry a negative stock count. -/
theorem stockCount_nonneg_counterexample :
    ¬ (∀ (env : Env) (r : Request) (d : ProductDetail),
        (productsHandler env r).outcome = .responded (.json d) → 0 ≤ d.StockCount) := by
  intro h
  have h1 := h (stubEnv okReply okReply sampleProduct { ProductID := 7, StockCount := -1 })
    sampleRequest
    { ID := 7, Name := "Lamp", Description := "Desk lamp",
      Price := { bits := 4626322717216342016 }, StockCount := -1 } (by decide)
  exact absurd h1 (by decide)

/-- C7, amended: in every `ProductDetail` that `productsHandler` writes, the
stock count is the `StockCount` returned by `getInventory` when it succeeded
and 0 when it failed; it is non-negative whenever the returned `StockCount`
is. -/
theorem productsHandler_stockCount (env : Env) (r : Request) (d : ProductDetail)
    (hd : (productsHandler env r).outcome = .responded (.json d)) :
    ((getInventory env (trimPrefix r.path "/api-go/products/")).err = Option.none →
        d.StockCount =
          (getInventory env (trimPrefix r.path "/api-go/products/")).value.StockCount) ∧
      ((getInventory env (trimPrefix r.path "/api-go/products/")).err ≠ Option.none →
        d.StockCount = 0) ∧
      (0 ≤ (getInventory env (trimPrefix r.path "/api-go/products/")).value.StockCount →
        0 ≤ d.StockCount) := by
  unfold productsHandler at hd
  simp only at hd
  split at hd
  · simp at hd
  · split at hd
    · split at hd
      · simp only [respond] at hd
        split at hd
        · simp at hd
        · cases hie : (getInventory env (trimPrefix r.path "/api-go/products/")).err with
          | none =>
            simp only [hie, Outcome.responded.injEq, Response.json.injEq] at hd
            subst hd
            simp
          | some ie =>
            simp only [hie, Outcome.responded.injEq, Response.json.injEq] at hd
            subst hd
            simp
      · simp at hd
    · simp at hd

theorem productsHandler_stockCount_witness :
    (0 : Int) ≤ 3 ∧
      ((0 : Int) ≤ (getInventory (stubEnv okReply okReply sampleProduct sampleInventory)
            (trimPrefix sampleRequest.path "/api-go/products/")).value.StockCount →
        (0 : Int) ≤ 3) :=
  ⟨by decide,
    (productsHandler_stockCount (stubEnv okReply okReply sampleProduct sampleInventory)
      sampleRequest
      { ID := 7, Name := "Lamp", Description := "Desk lamp",
        Price := { bits := 4626322717216342016 }, StockCount := 3 } (by decide)).2.2⟩

/-- C10: with a non-empty product id, `productsHandler` gets past the claim
extraction without panicking exactly when the context holds a claims map
under "user" whose "preferred_username" entry is a string. When it panics
it has written no response, printed nothing and sent nothing; this is what
happens behind `jwtMiddleware` for an accepted token whose claims have no
string-valued "preferred_username". -/
theorem productsHandler_panic_iff (env : Env) (r : Request)
    (hid : trimPrefix r.path "/api-go/products/" ≠ "") :
    ((productsHandler env r).outcome ≠ .panicked ↔
        ∃ m u, r.ctxValue "user" = some (.mapClaims m) ∧
          m.lookup "preferred_username" = some (.str u)) ∧
      ((productsHandler env r).outcome = .panicked → (productsHandler env r).trace = []) ∧
      (∀ (lib : JwtLib) (key : RSAPublicKey) (tok : Token),
        r.headerGet "Authorization" ≠ "" →
        trimPrefix (r.headerGet "Authorization") "Bearer " ≠ r.headerGet "Authorization" →
        jwtParse lib (trimPrefix (r.headerGet "Authorization") "Bearer ") (keyFunc key) issuer =
          (some tok, Option.none) →
        tok.Valid = true →
        (¬ ∃ u, tok.Claims.lookup "preferred_username" = some (.str u)) →
        serve env lib key r = { outcome := .panicked, trace := [] }) := by
  refine ⟨?_, ?_, ?_⟩
  · constructor
    · intro h
      unfold productsHandler at h
      simp only [hid, if_false] at h
      split at h
      · rename_i m hm
        split at h
        · rename_i u hu
          exact ⟨m, u, hm, hu⟩
        · exact absurd rfl h
      · exact absurd rfl h
    · rintro ⟨m, u, hm, hu⟩
      rw [productsHandler_authenticated env r m u hid hm hu]
      simp
  · intro h
    unfold productsHandler at h ⊢
    simp only [hid, if_false] at h ⊢
    split
    · rename_i m hm
      split
      · rename_i u hu
        simp [hm, hu] at h
      · rfl
    · rfl
  · intro lib key tok hne hb hparse hvalid hno
    unfold serve jwtMiddleware
    simp only [hne, hb, hparse, hvalid, if_false, Bool.not_true, Bool.false_eq_true]
    unfold productsHandler
    have hpath : (r.withValue "user" (.mapClaims tok.Claims)).path = r.path := rfl
    have hctx : (r.withValue "user" (.mapClaims tok.Claims)).ctxValue "user" =
        some (.mapClaims tok.Claims) := by
      simp [Request.withValue, Request.ctxValue, List.lookup]
    simp only [hpath, hid, if_false, hctx]
    split
    · rename_i u hu
      exact absurd ⟨u, hu⟩ hno
    · rfl

theorem productsHandler_panic_iff_witness :
    (productsHandler (stubEnv okReply okReply sampleProduct sampleInventory)
          inboundRequest).outcome = .panicked ∧
      serve (stubEnv okReply okReply sampleProduct sampleInventory) (stubLib anonymousToken)
          sampleKey inboundRequest = { outcome := .panicked, trace := [] } :=
  ⟨by decide,
    (productsHandler_panic_iff (stubEnv okReply okReply sampleProduct sampleInventory)
      inboundRequest (by decide)).2.2 (stubLib anonymousToken) sampleKey
      { anonymousToken with Raw := "abc", Valid := true }
      (by decide) (by decide) (by decide) (by decide)
      (by rintro ⟨u, hu⟩; cases hu)⟩

/-- C4: when the Authorization header is absent or empty, or does not start
with "Bearer ", `jwtMiddleware` answers 401 whatever the path and whatever
the wrapped handler is, which is therefore not invoked; the served route then
sends no outbound request. -/
theorem jwtMiddleware_rejects_non_bearer (env : Env) (lib : JwtLib) (key : RSAPublicKey)
    (r : Request)
    (h : r.headerGet "Authorization" = "" ∨
      startsWith (r.headerGet "Authorization") "Bearer " = false) :
    (∃ msg, (msg = "Authorization header required" ∨ msg = "Bearer token required") ∧
        ∀ next : Handler, jwtMiddleware lib key next r =
          { outcome := .responded (.error msg 401), trace := [] }) ∧
      sent (serve env lib key r).trace = [] := by
  have key1 : ∃ msg, (msg = "Authorization header required" ∨ msg = "Bearer token required") ∧
      ∀ next : Handler, jwtMiddleware lib key next r =
        { outcome := .responded (.error msg 401), trace := [] } := by
    by_cases he : r.headerGet "Authorization" = ""
    · refine ⟨"Authorization header required", Or.inl rfl, ?_⟩
      intro next
      unfold jwtMiddleware
      simp only [he, if_true]
      rfl
    · have hs : startsWith (r.headerGet "Authorization") "Bearer " = false := by
        rcases h with h | h
        · exact absurd h he
        · exact h
      refine ⟨"Bearer token required", Or.inr rfl, ?_⟩
      intro next
      unfold jwtMiddleware
      simp only [he, if_false, trimPrefix_of_not_startsWith _ _ hs, if_true]
      rfl
  refine ⟨key1, ?_⟩
  obtain ⟨msg, _, hmsg⟩ := key1
  unfold serve
  rw [hmsg]
  rfl

theorem jwtMiddleware_rejects_non_bearer_witness :
    (∃ msg, jwtMiddleware (stubLib sampleToken) sampleKey
        (productsHandler (stubEnv okReply okReply sampleProduct sampleInventory))
        basicRequest = { outcome := .responded (.error msg 401), trace := [] }) ∧
      sent (serve (stubEnv okReply okReply sampleProduct sampleInventory)
        (stubLib sampleToken) sampleKey basicRequest).trace = [] :=
  have h := jwtMiddleware_rejects_non_bearer
    (stubEnv okReply okReply sampleProduct sampleInventory)
    (stubLib sampleToken) sampleKey basicRequest (Or.inr (by decide))
  ⟨Exists.elim h.1 (fun msg hm => ⟨msg, hm.2 _⟩), h.2⟩

/-- C5: for a "Bearer "-prefixed header, `jwtMiddleware` either hands the
request to the wrapped handler, and then `jwt.Parse` returned no error and a
token marked valid, or answers 401 whatever the wrapped handler is. The key
callback returns the configured key, and only for an RSA signing method. A
token whose declared method is not RSA makes the callback fail with
"unexpected signing method" and gets 401; a token whose issuer claim is not
"my-api-gateway" gets 401 whatever the signature check says. -/
theorem jwtMiddleware_bearer (lib : JwtLib) (key : RSAPublicKey) (r : Request)
    (hb : startsWith (r.headerGet "Authorization") "Bearer " = true) :
    ((∃ tok, jwtParse lib (trimPrefix (r.headerGet "Authorization") "Bearer ") (keyFunc key)
            issuer = (some tok, Option.none) ∧ tok.Valid = true ∧
          ∀ next : Handler, jwtMiddleware lib key next r =
            next (r.withValue "user" (.mapClaims tok.Claims))) ∨
        (∃ msg, ∀ next : Handler, jwtMiddleware lib key next r =
          { outcome := .responded (.error msg 401), trace := [] })) ∧
      (∀ (t : Token) (k : RSAPublicKey), keyFunc key t = .ok k →
        (∃ alg, t.Method = .rsa alg) ∧ k = key) ∧
      (∀ t : Token,
        lib.parseUnverified (trimPrefix (r.headerGet "Authorization") "Bearer ") = .ok t →
        (∀ alg, t.Method ≠ .rsa alg) →
        keyFunc key t = .error ("unexpected signing method: " ++ t.headerAlg) ∧
          ∀ next : Handler, jwtMiddleware lib key next r =
            { outcome := .responded (.error
                ("Invalid token: " ++
                  ("token is unverifiable: error while executing keyfunc: " ++
                    ("unexpected signing method: " ++ t.headerAlg))) 401),
              trace := [] }) ∧
      (∀ t : Token,
        lib.parseUnverified (trimPrefix (r.headerGet "Authorization") "Bearer ") = .ok t →
        getIssuer t.Claims ≠ .ok "my-api-gateway" →
        ∃ msg, ∀ next : Handler, jwtMiddleware lib key next r =
          { outcome := .responded (.error msg 401), trace := [] }) := by
  have hkf : ∀ t : Token, (∀ alg, t.Method ≠ .rsa alg) →
      keyFunc key t = .error ("unexpected signing method: " ++ t.headerAlg) := by
    intro t hm
    unfold keyFunc
    cases hmeth : t.Method with
    | rsa alg => exact absurd hmeth (hm alg)
    | rsaPSS alg => rfl
    | hmac alg => rfl
    | ecdsa alg => rfl
    | ed25519 => rfl
    | none => rfl
  refine ⟨?_, ?_, ?_, ?_⟩
  · rcases jwtParse_cases lib (trimPrefix (r.headerGet "Authorization") "Bearer ")
      (keyFunc key) issuer with ⟨e, he⟩ | ⟨tok, htok, hv⟩
    · exact Or.inr ⟨_, fun next => jwtMiddleware_parse_error lib key r e hb he next⟩
    · exact Or.inl ⟨tok, htok, hv, fun next => jwtMiddleware_parse_ok lib key r tok hb htok hv next⟩
  · intro t k hk
    unfold keyFunc at hk
    cases hmeth : t.Method with
    | rsa alg =>
      rw [hmeth] at hk
      simp only [Except.ok.injEq] at hk
      exact ⟨⟨alg, rfl⟩, hk.symm⟩
    | rsaPSS alg => rw [hmeth] at hk; cases hk
    | hmac alg => rw [hmeth] at hk; cases hk
    | ecdsa alg => rw [hmeth] at hk; cases hk
    | ed25519 => rw [hmeth] at hk; cases hk
    | none => rw [hmeth] at hk; cases hk
  · intro t ht hm
    refine ⟨hkf t hm, ?_⟩
    intro next
    apply jwtMiddleware_parse_error lib key r _ hb
    rw [jwtParse_keyFunc_error lib _ (keyFunc key) issuer t _ ht (hkf t hm)]
  · intro t ht hiss
    obtain ⟨e, he⟩ := jwtParse_issuer_error lib _ (keyFunc key) issuer t ht (by decide) hiss
    exact ⟨_, fun next => jwtMiddleware_parse_error lib key r e hb he next⟩

theorem jwtMiddleware_bearer_witness :
    jwtMiddleware (stubLib hmacToken) sampleKey
        (productsHandler (stubEnv okReply okReply sampleProduct sampleInventory))
        inboundRequest =
      { outcome := .responded (.error
          ("Invalid token: " ++
            ("token is unverifiable: error while executing keyfunc: " ++
              ("unexpected signing method: " ++ "HS256"))) 401),
        trace := [] } :=
  ((jwtMiddleware_bearer (stubLib hmacToken) sampleKey inboundRequest (by decide)).2.2.1
    { hmacToken with Raw := "abc" } (congrArg Except.ok (by decide))
    (by intro alg h; cases h)).2 _

/-- C9: in every interleaving of the two fetch goroutines and the main
goroutine, `getProduct` and `getInventory` are each called at most once; a
response is written only after both have been called exactly once and both
goroutines have finished (the `WaitGroup` counter is zero), and it is the
decision of `respond` on the two results, whatever the order in which they
arrived; letting the goroutines run on always ends in that response, an
error of one fetch does not stop the other; and it is the response of
`productsHandler`. -/
theorem join_response (env : Env) (id h : String) (sched : List Thread) :
    (JoinState.run env id h sched JoinState.init).productCalls ≤ 1 ∧
      (JoinState.run env id h sched JoinState.init).inventoryCalls ≤ 1 ∧
      (∀ resp, (JoinState.run env id h sched JoinState.init).response = some resp →
        (JoinState.run env id h sched JoinState.init).productCalls = 1 ∧
          (JoinState.run env id h sched JoinState.init).inventoryCalls = 1 ∧
          (JoinState.run env id h sched JoinState.init).productPc = .done ∧
          (JoinState.run env id h sched JoinState.init).inventoryPc = .done ∧
          (JoinState.run env id h sched JoinState.init).wg = 0 ∧
          resp = (respond id (getProduct env id h).value (getProduct env id h).err
            (getInventory env id).value (getInventory env id).err).1) ∧
      (JoinState.run env id h
          (sched ++ [.productTask, .productTask, .inventoryTask, .inventoryTask, .main])
          JoinState.init).response =
        some (respond id (getProduct env id h).value (getProduct env id h).err
          (getInventory env id).value (getInventory env id).err).1 ∧
      (∀ (r : Request) (m : MapClaims) (u : String),
        trimPrefix r.path "/api-go/products/" = id → id ≠ "" →
        r.headerGet "Authorization" = h →
        r.ctxValue "user" = some (.mapClaims m) →
        m.lookup "preferred_username" = some (.str u) →
        (productsHandler env r).outcome =
          .responded (respond id (getProduct env id h).value (getProduct env id h).err
            (getInventory env id).value (getInventory env id).err).1) := by
  have hinv := JoinState.inv_run env id h sched JoinState.init (JoinState.inv_init env id h)
  obtain ⟨h1, h2, h3, h4, h5, h6⟩ := hinv
  refine ⟨?_, ?_, ?_, ?_, ?_⟩
  · rw [h2]
    split <;> omega
  · rw [h3]
    split <;> omega
  · intro resp hr
    obtain ⟨hwg, hresp⟩ := h6 resp hr
    have hpd : (JoinState.run env id h sched JoinState.init).productPc = .done := by
      by_contra hne
      simp [hne] at h1
      omega
    have hid : (JoinState.run env id h sched JoinState.init).inventoryPc = .done := by
      by_contra hne
      simp [hne] at h1
      omega
    refine ⟨?_, ?_, hpd, hid, hwg, hresp⟩
    · rw [h2, hpd]
      rfl
    · rw [h3, hid]
      rfl
  · have hinv2 := JoinState.inv_run env id h sched JoinState.init (JoinState.inv_init env id h)
    obtain ⟨resp, hresp⟩ := JoinState.finish env id h _ hinv2
    rw [JoinState.run_append, hresp]
    have hinv3 := JoinState.inv_run env id h
      [.productTask, .productTask, .inventoryTask, .inventoryTask, .main] _ hinv2
    rw [(hinv3.2.2.2.2.2 resp hresp).2]
  · intro r m u hid hne hh hctx hu
    subst hid
    subst hh
    rw [productsHandler_authenticated env r m u hne hctx hu]

theorem join_response_witness :
    (JoinState.run (stubEnv failReply okReply sampleProduct sampleInventory) "7" "Bearer abc"
        [.inventoryTask, .productTask, .inventoryTask, .productTask, .main]
        JoinState.init).productCalls = 1 ∧
      (JoinState.run (stubEnv failReply okReply sampleProduct sampleInventory) "7" "Bearer abc"
        [.inventoryTask, .productTask, .inventoryTask, .productTask, .main]
        JoinState.init).inventoryCalls = 1 :=
  have h := (join_response (stubEnv failReply okReply sampleProduct sampleInventory) "7"
    "Bearer abc" [.inventoryTask, .productTask, .inventoryTask, .productTask, .main]).2.2.1
    (.error ("Product API returned an error: " ++ "unexpected status code: 500, body: boom")
      502) (by decide)
  ⟨h.1, h.2.1⟩

end BffApiGo
